import Mathlib

/-!
Verification of the `rl_training` repository: a shallow embedding of the
hierarchical navigation environment (`hierarchical_nav_env.py`), the frozen
locomotion policy utilities (`frozen_policy.py`), the goal-command and
observation functions (`mdp/commands.py`, `mdp/observations.py`), and the
Perlin terrain generator (`perlin_terrain.py`).

Conventions of the embedding:
* Python floats are modelled as real numbers (`ℝ`); decimal literals of the
  source become the corresponding rational constants.
* Torch tensors indexed per environment become functions `Fin n → _`.
* External collaborators (the simulator state, the low-level `env.step`, the
  neural-network inference call) are parameters of the embedding; everything
  the repository itself computes is translated from the source.
* Fallible tensor operations (broadcast-checked slice assignment) return
  `Option`; a raised Python exception is `none` together with the state at
  the point of failure.
-/

namespace RlTraining

/-- `torch.atan2 y x`, modelled as the argument of the complex number
`x + y*I` (range `(-π, π]`, `atan2 0 0 = 0`, matching torch). -/
noncomputable def atan2 (y x : ℝ) : ℝ := Complex.arg ⟨x, y⟩

/-- 2D Euclidean distance `torch.norm(g - p)` between points `p` and `g`. -/
noncomputable def dist2 (p g : ℝ × ℝ) : ℝ :=
  Real.sqrt ((g.1 - p.1) ^ 2 + (g.2 - p.2) ^ 2)

/-! ## `rl_training/utils/frozen_policy.py` -/

/-- One `torch.nn.Parameter`: its flat list of values and its
`requires_grad` flag.  `vals.length` is `numel()`. -/
structure Param where
  vals : List ℚ
  requiresGrad : Bool

/-- A policy network: `policy_nn.parameters()` as a list. -/
structure PolicyNN where
  params : List Param

/-- The `OnPolicyRunner`: the embedding keeps only the field read by
`freeze_policy` (`runner.alg.policy`, with the `actor_critic` fallback for
older versions binding the same module). -/
structure Runner where
  policy : PolicyNN

/-- `freeze_policy(runner)`: sets `requires_grad = False` on every parameter
of the extracted policy module and returns it (eval mode has no effect on
parameters). -/
def freeze_policy (runner : Runner) : PolicyNN :=
  { params := runner.policy.params.map fun p => { p with requiresGrad := false } }

/-- `is_frozen(policy_nn)`: all parameters have `requires_grad == False`. -/
def is_frozen (policy_nn : PolicyNN) : Bool :=
  policy_nn.params.all fun p => !p.requiresGrad

/-- `count_parameters(policy_nn)`: sum of `p.numel()` over parameters. -/
def count_parameters (policy_nn : PolicyNN) : ℕ :=
  (policy_nn.params.map fun p => p.vals.length).sum

/-! ## `FrozenLocomotionPolicy.__call__`

The environment state relevant to the call is the `base_velocity` command
term tensor, of shape `[num_envs, W]`; it is modelled as a total function
`ℕ → ℕ → ℝ` together with the explicit width `W` (entries outside the shape
are irrelevant).  The observation computation followed by policy inference
is the abstract function `infer`, reading the command state. -/

/-- Torch slice assignment `t[:, :3] = rhs` on a tensor of width `W`, where
`rhs` has width `R`.  The left slice has width `min W 3`; the assignment
succeeds iff `rhs` broadcasts to it, i.e. `R = min W 3` or `R = 1`
(broadcasting repeats column 0).  On failure torch raises before mutating. -/
def assignSlice3 (W : ℕ) (t : ℕ → ℕ → ℝ) (R : ℕ) (rhs : ℕ → ℕ → ℝ) :
    Option (ℕ → ℕ → ℝ) :=
  if R = min W 3 ∨ R = 1 then
    some (fun i j => if j < min W 3 then rhs i (if R = 1 then 0 else j) else t i j)
  else
    none

/-- `FrozenLocomotionPolicy.__call__(velocity_command)` acting on a
`base_velocity` command tensor of width `W`:
stores `original_cmd = cmd.clone()`, does `cmd[:, :3] = velocity_command`
(width 3), computes actions from the modified state, then does
`cmd[:, :3] = original_cmd` (width `W`!).  Returns the produced actions (or
`none` if an assignment raised) together with the command tensor after the
call. -/
def frozenPolicyCall {Act : Type} (W : ℕ) (infer : (ℕ → ℕ → ℝ) → Act)
    (cmd : ℕ → ℕ → ℝ) (vel : ℕ → ℕ → ℝ) : Option Act × (ℕ → ℕ → ℝ) :=
  match assignSlice3 W cmd 3 vel with
  | none => (none, cmd)
  | some cmd1 =>
      let actions := infer cmd1
      match assignSlice3 W cmd1 W cmd with
      | none => (none, cmd1)
      | some cmd2 => (some actions, cmd2)

/-! ## `mdp/observations.py` -/

/-- A root orientation quaternion `(w, x, y, z)` from the simulator. -/
structure Quat where
  w : ℝ
  x : ℝ
  y : ℝ
  z : ℝ
deriving Inhabited

/-- `robot_yaw`: yaw extracted from the root quaternion by
`atan2(2*(qw*qz + qx*qy), 1 - 2*(qy*qy + qz*qz))`. -/
noncomputable def robot_yaw (q : Quat) : ℝ :=
  atan2 (2 * (q.w * q.z + q.x * q.y)) (1 - 2 * (q.y * q.y + q.z * q.z))

/-- `direction_to_goal`: unit vector from robot to goal, rotated into the
robot frame.  `robot`/`goal` are the 2D world positions, `q` the root
quaternion.  Translated line by line from `mdp/observations.py`:
the world direction is `(goal - robot) / clamp(dist, min=1e-6)` and the
rotation is by minus the yaw. -/
noncomputable def direction_to_goal (q : Quat) (robot goal : ℝ × ℝ) : ℝ × ℝ :=
  let yawVal := robot_yaw q
  let dx := goal.1 - robot.1
  let dy := goal.2 - robot.2
  let distance := Real.sqrt (dx ^ 2 + dy ^ 2)
  let dwx := dx / max distance (1 / 10 ^ 6)
  let dwy := dy / max distance (1 / 10 ^ 6)
  (dwx * Real.cos yawVal + dwy * Real.sin yawVal,
   -dwx * Real.sin yawVal + dwy * Real.cos yawVal)

/-! ## `hierarchical_nav_env.py`: `HierarchicalNavEnv`

The wrapper keeps a low-level environment (abstract state type `S`), the
frozen policy wrapper (a function from the high-level command `C` and the
current low-level state to per-env joint actions `A`), and its own goal /
previous-distance bookkeeping.  The simulator accessors `root_pos_w` and
`root_quat_w` are parameters. -/

/-- The external collaborators of `HierarchicalNavEnv`:
`env.step` (returning the next state and the combined done flags),
`env.reset`, the frozen policy wrapper, the scene accessors, and the
decimation count (default 10, as in `__init__`). -/
structure NavEnv (S A C : Type) (n : ℕ) where
  lowStep : S → (Fin n → A) → S × (Fin n → Bool)
  lowReset : S → S
  policyWrapper : C → S → Fin n → A
  rootPos : S → Fin n → ℝ × ℝ
  rootQuat : S → Fin n → Quat
  decimation : ℕ := 10

/-- The mutable bookkeeping of `HierarchicalNavEnv`: the wrapped low-level
state, `_goal_positions` and `_prev_distance_to_goal` (`none` models the
Python `None`). -/
structure NavState (S : Type) (n : ℕ) where
  low : S
  goals : Fin n → ℝ × ℝ
  prevDist : Option (Fin n → ℝ)
deriving Inhabited

/-- `self._goal_distance_range = (1.0, 5.0)` set in `__init__`. -/
def goalDistanceRange : ℝ × ℝ := (1, 5)

/-- Distance from robot to the stored goal of environment `i`:
`torch.norm(self._goal_positions - robot_pos_2d, dim=1)`. -/
noncomputable def distanceToGoal {S A C : Type} {n : ℕ} (E : NavEnv S A C n)
    (st : NavState S n) (i : Fin n) : ℝ :=
  dist2 (E.rootPos st.low i) (st.goals i)

/-- The arithmetic core shared by `HierarchicalNavEnv._resample_goals` and
`UniformGoalPositionCommand._resample_command`: place the goal at
`robot + (d*cos θ, d*sin θ)` for a sampled distance `d` and angle `θ`. -/
noncomputable def resampleGoal (robot : ℝ × ℝ) (d θ : ℝ) : ℝ × ℝ :=
  (robot.1 + d * Real.cos θ, robot.2 + d * Real.sin θ)

/-- `HierarchicalNavEnv._resample_goals(env_ids)`: overwrite the goal of
every selected environment (`mask i = true` iff `i ∈ env_ids`) with a fresh
sample; `d i`, `θ i` are the values drawn by `uniform_`. -/
noncomputable def resampleGoals {S A C : Type} {n : ℕ} (E : NavEnv S A C n)
    (st : NavState S n) (mask : Fin n → Bool) (d θ : Fin n → ℝ) : NavState S n :=
  { st with
    goals := fun i =>
      if mask i then resampleGoal (E.rootPos st.low i) (d i) (θ i) else st.goals i }

/-- `HierarchicalNavEnv.reset`: reset the low-level environment, resample all
goals, and clear `_prev_distance_to_goal` to `None`. -/
noncomputable def reset {S A C : Type} {n : ℕ} (E : NavEnv S A C n)
    (st : NavState S n) (d θ : Fin n → ℝ) : NavState S n :=
  let st1 : NavState S n := { st with low := E.lowReset st.low }
  { resampleGoals E st1 (fun _ => true) d θ with prevDist := none }

/-- The decimation loop of `HierarchicalNavEnv.step`: repeat `k` times
`low_level_actions = frozen_policy_wrapper(action); env.step(...)`.
Returns the final low-level state, the list of high-level commands handed to
the frozen policy wrapper (one entry per low-level `env.step` call), and the
done flags of the last iteration (`none` when the loop body never ran). -/
def stepLoop {S A C : Type} {n : ℕ} (E : NavEnv S A C n) (cmd : C) :
    ℕ → S → S × List C × Option (Fin n → Bool)
  | 0, s => (s, [], none)
  | k + 1, s =>
      let acts := E.policyWrapper cmd s
      let res := E.lowStep s acts
      let rest := stepLoop E cmd k res.1
      (rest.1, cmd :: rest.2.1, some (rest.2.2.getD res.2))

/-- One row of the high-level observation tensor
`[robot_pos_2d, robot_yaw, goal_pos_2d, distance, direction]`. -/
structure HLObs where
  px : ℝ
  py : ℝ
  yaw : ℝ
  gx : ℝ
  gy : ℝ
  dist : ℝ
  dirx : ℝ
  diry : ℝ
deriving Inhabited

/-- `HierarchicalNavEnv._get_high_level_observations`, row `i`. -/
noncomputable def highLevelObs {S A C : Type} {n : ℕ} (E : NavEnv S A C n)
    (st : NavState S n) (i : Fin n) : HLObs :=
  let p := E.rootPos st.low i
  let yawVal := robot_yaw (E.rootQuat st.low i)
  let g := st.goals i
  let dx := g.1 - p.1
  let dy := g.2 - p.2
  let distance := Real.sqrt (dx ^ 2 + dy ^ 2)
  let dwx := dx / max distance (1 / 10 ^ 6)
  let dwy := dy / max distance (1 / 10 ^ 6)
  { px := p.1, py := p.2, yaw := yawVal, gx := g.1, gy := g.2,
    dist := distance,
    dirx := dwx * Real.cos yawVal + dwy * Real.sin yawVal,
    diry := -dwx * Real.sin yawVal + dwy * Real.cos yawVal }

/-- `HierarchicalNavEnv._compute_high_level_rewards`: returns the reward
vector and the state with `_prev_distance_to_goal` updated to the current
distance.  When the stored previous distance is `None` it is first
initialised to the current distance (making the progress term zero). -/
noncomputable def computeHighLevelRewards {S A C : Type} {n : ℕ}
    (E : NavEnv S A C n) (st : NavState S n) : (Fin n → ℝ) × NavState S n :=
  let d := fun i => distanceToGoal E st i
  let prev := st.prevDist.getD d
  (fun i => Real.exp (-d i / (0.5 : ℝ) ^ 2) + 0.5 * (prev i - d i),
   { st with prevDist := some d })

/-- `HierarchicalNavEnv._compute_high_level_terminations`:
`terminated = (distance < 0.5) | low_level_dones`,
`truncated = low_level_dones`. -/
noncomputable def computeHighLevelTerminations {S A C : Type} {n : ℕ}
    (E : NavEnv S A C n) (st : NavState S n) (lowDones : Fin n → Bool) :
    (Fin n → Bool) × (Fin n → Bool) :=
  (fun i => decide (distanceToGoal E st i < 0.5) || lowDones i, lowDones)

/-- `tensor.mean().item()` over the environment dimension. -/
noncomputable def mean {n : ℕ} (f : Fin n → ℝ) : ℝ := (∑ i, f i) / n

/-- The high-level metrics `HierarchicalNavEnv.step` writes into the info
dict: `Episode_Termination/goal_reached`, `Episode_Reward/goal_reaching`,
`Episode_Reward/progress`, `hierarchical/distance_to_goal`. -/
structure HLInfo where
  goalReachedMean : ℝ
  goalReachingMean : ℝ
  progressMean : ℝ
  distanceMean : ℝ
deriving Inhabited

/-- The 5-tuple returned by `HierarchicalNavEnv.step`, together with the
updated wrapper state. -/
structure StepResult (S : Type) (n : ℕ) where
  obs : Fin n → HLObs
  rew : Fin n → ℝ
  terminated : Fin n → Bool
  truncated : Fin n → Bool
  info : HLInfo
  state : NavState S n
deriving Inhabited

/-- `HierarchicalNavEnv.step(action)`: run the decimation loop, then compute
high-level observations, rewards, terminations, and the logged metrics, in
the source order.  `none` models the `AttributeError` raised on
`last_dones.bool()` when `decimation = 0` leaves `last_dones = None`. -/
noncomputable def step {S A C : Type} {n : ℕ} (E : NavEnv S A C n) (cmd : C)
    (st : NavState S n) : Option (StepResult S n) :=
  let L := stepLoop E cmd E.decimation st.low
  match L.2.2 with
  | none => none
  | some lastDones =>
      let st1 : NavState S n := { st with low := L.1 }
      let obs := highLevelObs E st1
      let R := computeHighLevelRewards E st1
      let T := computeHighLevelTerminations E R.2 lastDones
      let d := fun i => distanceToGoal E R.2 i
      let goalReached := fun i => decide (d i < 0.5)
      let goalReward := fun i => Real.exp (-d i / (0.5 : ℝ) ^ 2)
      let progress : Fin n → ℝ :=
        match R.2.prevDist with
        | some pd => fun i => pd i - d i
        | none => fun _ => 0
      some
        { obs := obs, rew := R.1, terminated := T.1, truncated := T.2,
          info :=
            { goalReachedMean := mean fun i => if goalReached i then 1 else 0,
              goalReachingMean := mean goalReward,
              progressMean := mean progress,
              distanceMean := mean d },
          state := R.2 }

/-! ## `mdp/commands.py`: `UniformGoalPositionCommand` -/

/-- `UniformGoalPositionCommandCfg` with its default `distance_range`. -/
structure UniformGoalPositionCommandCfg where
  distance_range : ℝ × ℝ := (1, 5)

/-- `UniformGoalPositionCommand._resample_command(env_ids)`: overwrite the
`[goal_x, goal_y]` command rows of the selected environments with
`robot + (d*cos θ, d*sin θ)`; `d i` is drawn by `uniform_` from
`cfg.distance_range` and `θ i` from `[-π, π]`. -/
noncomputable def resample_command {n : ℕ} (_cfg : UniformGoalPositionCommandCfg)
    (robotPos : Fin n → ℝ × ℝ) (cmd : Fin n → ℝ × ℝ) (mask : Fin n → Bool)
    (d θ : Fin n → ℝ) : Fin n → ℝ × ℝ :=
  fun i => if mask i then resampleGoal (robotPos i) (d i) (θ i) else cmd i

/-! ## `assets/terrains/perlin_terrain.py`

The `numpy` randomness (`np.random.rand` drawing the gradient angles) is a
parameter: `angles k a b` is `2π * rand` for octave `k` at lattice node
`(a, b)`.  Pixels are addressed by natural indices; the lattice-cell lookup
`i / (shape // res)` and the fractional coordinate `fract (i * res / shape)`
are the real-arithmetic readings of the `np.mgrid`/`repeat` bookkeeping of
the source (exact whenever `res` divides `shape`, which the source requires
for its arrays to line up). -/

/-- Python `int(x)`: truncation toward zero. -/
noncomputable def pyInt (x : ℝ) : ℤ := if 0 ≤ x then ⌊x⌋ else ⌈x⌉

/-- Python `int(x)` used as an array size / resolution (nonnegative). -/
noncomputable def pyIntNat (x : ℝ) : ℕ := (pyInt x).toNat

/-- `np.rint`: round to nearest integer, ties to even. -/
noncomputable def nprint (x : ℝ) : ℤ :=
  if Int.fract x < 1 / 2 then ⌊x⌋
  else if 1 / 2 < Int.fract x then ⌊x⌋ + 1
  else if Even ⌊x⌋ then ⌊x⌋ else ⌊x⌋ + 1

/-- `.astype(np.int16)`: wrap an integer into `[-2^15, 2^15)`. -/
def int16ofInt (v : ℤ) : ℤ := (v + 2 ^ 15) % 2 ^ 16 - 2 ^ 15

/-- The quintic fade `f(t) = 6t^5 - 15t^4 + 10t^3`. -/
noncomputable def fade (t : ℝ) : ℝ := 6 * t ^ 5 - 15 * t ^ 4 + 10 * t ^ 3

/-- Alignment condition of one `generate_perlin_noise_2d(shape, res)` call:
positive shape and resolution, with the resolution dividing the shape.
Exactly then the `np.mgrid` grid (shape `(sx, sy)`) and the `repeat`-ed
gradient arrays (shape `(rx * (sx // rx), ry * (sy // ry))`) line up.
Otherwise Python raises — a `ZeroDivisionError` on an empty axis, or a
broadcast `ValueError` at the elementwise products or at the caller's
`noise +=` accumulation — as the source's own comment warns
("inconsistent array size"). -/
def perlinAligned (sx sy rx ry : ℕ) : Prop :=
  0 < sx ∧ 0 < sy ∧ 0 < rx ∧ 0 < ry ∧ rx ∣ sx ∧ ry ∣ sy

instance (sx sy rx ry : ℕ) : Decidable (perlinAligned sx sy rx ry) := by
  unfold perlinAligned
  infer_instance

/-- The value of an aligned `generate_perlin_noise_2d(shape, res)` call at
pixel `(i, j)`, with gradient angles `ang`.  `d = shape // res` cells of `d`
pixels; gradients are `(cos, sin)` of the angles; the four ramps are
interpolated with the faded local coordinates and the result is mapped by
`√2 * _ * 0.5 + 0.5`. -/
noncomputable def perlinNoiseAt (sx sy rx ry : ℕ)
    (ang : ℕ → ℕ → ℝ) (i j : ℕ) : ℝ :=
  let d0 := sx / rx
  let d1 := sy / ry
  let u : ℝ := Int.fract ((i : ℝ) * rx / sx)
  let v : ℝ := Int.fract ((j : ℝ) * ry / sy)
  let ci := i / d0
  let cj := j / d1
  let grad := fun a b => (Real.cos (ang a b), Real.sin (ang a b))
  let g00 := grad ci cj
  let g10 := grad (ci + 1) cj
  let g01 := grad ci (cj + 1)
  let g11 := grad (ci + 1) (cj + 1)
  let n00 := u * g00.1 + v * g00.2
  let n10 := (u - 1) * g10.1 + v * g10.2
  let n01 := u * g01.1 + (v - 1) * g01.2
  let n11 := (u - 1) * g11.1 + (v - 1) * g11.2
  let n0 := n00 * (1 - fade u) + fade u * n10
  let n1 := n01 * (1 - fade u) + fade u * n11
  Real.sqrt 2 * ((1 - fade v) * n0 + fade v * n1) * 0.5 + 0.5

/-- `generate_perlin_noise_2d(shape, res)`: the noise array when the shapes
align, `none` (a raised exception) otherwise. -/
noncomputable def generate_perlin_noise_2d (sx sy rx ry : ℕ)
    (ang : ℕ → ℕ → ℝ) : Option (ℕ → ℕ → ℝ) :=
  if perlinAligned sx sy rx ry then some (perlinNoiseAt sx sy rx ry ang)
  else none

/-- The grid scale the octave loop uses in its pass `k`: `k` applications of
`int(lacunarity * _)` to the initial scale. -/
noncomputable def octaveScale (lac : ℝ) (xs0 : ℕ) (k : ℕ) : ℕ :=
  (fun s => pyIntNat (lac * s))^[k] xs0

/-- The octave loop of `generate_fractal_noise_2d`: each pass adds
`amplitude * perlin(shape, (xScale, yScale)) * zScale`, multiplies the
amplitude by the gain and maps both scales through `int(lacunarity * _)`.
`ang k` is the fresh gradient-angle array drawn in pass `k`.  A misaligned
pass aborts the whole loop (`none`), as the raised exception does. -/
noncomputable def fractalLoop (sx sy : ℕ) (lac gain z : ℝ) :
    ℕ → ℝ → ℕ → ℕ → (ℕ → ℕ → ℕ → ℝ) → Option (ℕ → ℕ → ℝ)
  | 0, _, _, _, _ => some (fun _ _ => 0)
  | m + 1, amp, xs, ys, ang =>
      (generate_perlin_noise_2d sx sy xs ys (ang 0)).bind fun octave =>
        (fractalLoop sx sy lac gain z m (amp * gain) (pyIntNat (lac * xs))
            (pyIntNat (lac * ys)) (fun t => ang (t + 1))).map fun rest =>
          fun i j => amp * octave i j * z + rest i j

/-- `generate_fractal_noise_2d`: initial scales `int(frequency * xSize)`
(exact here, all arguments being Python ints at the call site), amplitude 1. -/
noncomputable def generate_fractal_noise_2d
    (xSize ySize xSamples ySamples frequency : ℕ) (fractalOctaves : ℕ)
    (fractalLacunarity fractalGain zScale : ℝ) (ang : ℕ → ℕ → ℕ → ℝ) :
    Option (ℕ → ℕ → ℝ) :=
  fractalLoop xSamples ySamples fractalLacunarity fractalGain zScale
    fractalOctaves 1 (frequency * xSize) (frequency * ySize) ang

/-- `HfPerlinTerrainCfg` (with the `HfTerrainBaseCfg` fields the function
reads) and its declared defaults. -/
structure HfPerlinTerrainCfg where
  size : ℝ × ℝ
  horizontal_scale : ℝ
  vertical_scale : ℝ
  frequency : ℝ := 10
  fractal_octaves : ℕ := 2
  fractal_lacunarity : ℝ := 2
  fractal_gain : ℝ := 0.25
  z_scale : ℝ := 0.23

/-- `perlin_terrain(difficulty, cfg)` (difficulty is ignored by the source):
a heightfield of shape
`(int(size[0]/horizontal_scale), int(size[1]/horizontal_scale))` whose
entries are the fractal noise scaled by `int(z_scale/vertical_scale)`,
rounded by `np.rint` and cast to `np.int16`; `none` when the noise
generation raised. -/
noncomputable def perlin_terrain (cfg : HfPerlinTerrainCfg)
    (ang : ℕ → ℕ → ℕ → ℝ) :
    Option (Fin (pyIntNat (cfg.size.1 / cfg.horizontal_scale)) →
      Fin (pyIntNat (cfg.size.2 / cfg.horizontal_scale)) → ℤ) :=
  Option.map
    (fun noise i j => int16ofInt (nprint (noise (i : ℕ) (j : ℕ))))
    (generate_fractal_noise_2d (pyIntNat cfg.size.1)
      (pyIntNat cfg.size.2) (pyIntNat (cfg.size.1 / cfg.horizontal_scale))
      (pyIntNat (cfg.size.2 / cfg.horizontal_scale)) (pyIntNat cfg.frequency)
      cfg.fractal_octaves cfg.fractal_lacunarity cfg.fractal_gain
      ((pyInt (cfg.z_scale / cfg.vertical_scale) : ℤ) : ℝ) ang)

/-! ## Concrete instances used by the witnesses -/

/-- A one-environment instance: the low-level step always reports done, the
robot sits at the origin with identity orientation, decimation 1. -/
def E0 : NavEnv Unit Unit Unit 1 where
  lowStep := fun _ _ => ((), fun _ => true)
  lowReset := fun s => s
  policyWrapper := fun _ _ _ => ()
  rootPos := fun _ _ => (0, 0)
  rootQuat := fun _ _ => ⟨1, 0, 0, 0⟩
  decimation := 1

/-- A concrete wrapper state: goal at `(3, 4)` (distance 5 from the robot),
no stored previous distance. -/
def st0 : NavState Unit 1 where
  low := ()
  goals := fun _ => (3, 4)
  prevDist := none

/-- The result of one concrete high-level step on `E0`/`st0`. -/
noncomputable def r0 : StepResult Unit 1 := (step E0 () st0).getD default

/-- A concrete Perlin terrain configuration: `2 × 2` size, unit scales, one
octave, lacunarity 2. -/
noncomputable def cfg0 : HfPerlinTerrainCfg where
  size := (2, 2)
  horizontal_scale := 1
  vertical_scale := 1
  frequency := 1
  fractal_octaves := 1
  fractal_lacunarity := 2
  fractal_gain := 1 / 4
  z_scale := 2

/-- A terrain configuration on which the generation raises: the heightfield
is 2 pixels wide, the first octave's grid scale is `1 * 2 = 2`, and the
second octave's scale `int(2.0 * 2) = 4` does not divide 2, so the numpy
arrays of that octave misalign. -/
noncomputable def cfgBad : HfPerlinTerrainCfg where
  size := (2, 2)
  horizontal_scale := 1
  vertical_scale := 1
  frequency := 1
  fractal_octaves := 2
  fractal_lacunarity := 2
  fractal_gain := 1 / 4
  z_scale := 2

/-- A terrain configuration with fractional lacunarity `1.5` on which the
program runs fine: the heightfield is 12 pixels wide and the octave scales
are `2`, `int(1.5 * 2) = 3`, `int(1.5 * 3) = 4`, each dividing 12 — but the
third scale is 4, not the `2 * 1.5² = 4.5` that multiplying the frequency by
the lacunarity would give. -/
noncomputable def cfgFrac : HfPerlinTerrainCfg where
  size := (2, 2)
  horizontal_scale := 1 / 6
  vertical_scale := 1
  frequency := 1
  fractal_octaves := 3
  fractal_lacunarity := 3 / 2
  fractal_gain := 1 / 4
  z_scale := 2

/-! ## Theorems -/

/-- C7: `freeze_policy` leaves every parameter with `requires_grad = False`
(so `is_frozen` returns `True`), and changes neither the number nor the
values of the parameters, so `count_parameters` is unchanged. -/
theorem freeze_policy_spec (runner : Runner) :
    is_frozen (freeze_policy runner) = true ∧
    count_parameters (freeze_policy runner) = count_parameters runner.policy ∧
    (freeze_policy runner).params.map Param.vals =
      runner.policy.params.map Param.vals := by
  refine ⟨?_, ?_, ?_⟩
  · simp [is_frozen, freeze_policy, List.all_eq_true]
  · simp only [count_parameters, freeze_policy, List.map_map]
    rfl
  · simp [freeze_policy, List.map_map, Function.comp]

/-- C2, counterexample: on a `base_velocity` command term of width 4 the
restoring assignment `cmd[:, :3] = original_cmd` raises (the right-hand side
has width 4) and the call leaves the first three columns overwritten, so the
command does not hold its original value after the call. -/
theorem frozen_call_width4_not_restored :
    ¬ (frozenPolicyCall 4 (fun _ => ()) (fun _ _ => (0 : ℝ)) fun _ _ => 1).2 =
        fun _ _ => (0 : ℝ) := by
  intro h
  have h00 := congrFun (congrFun h 0) 0
  norm_num [frozenPolicyCall, assignSlice3] at h00

/-- C2, amended: when the `base_velocity` command term has width exactly 3
(as it does in this repository), `FrozenLocomotionPolicy.__call__` restores
the command term to its pre-call value and returns actions; for any other
width one of the two slice assignments raises a shape error. -/
theorem frozen_call_width3_restores {Act : Type} (infer : (ℕ → ℕ → ℝ) → Act)
    (cmd vel : ℕ → ℕ → ℝ) (W : ℕ) (hW : W = 3) :
    (frozenPolicyCall W infer cmd vel).2 = cmd ∧
    (frozenPolicyCall W infer cmd vel).1.isSome = true := by
  subst hW
  constructor
  · funext i j
    by_cases hj : j < 3 <;> simp [frozenPolicyCall, assignSlice3, hj]
  · simp [frozenPolicyCall, assignSlice3]

/-- C2, witness for the amended theorem at width 3 with a concrete command
and velocity. -/
theorem frozen_call_width3_restores_witness :
    (frozenPolicyCall 3 (fun _ => ()) (fun _ _ => (5 : ℝ)) fun _ _ => 7).2 =
        (fun _ _ => (5 : ℝ)) ∧
    (frozenPolicyCall 3 (fun _ => ()) (fun _ _ => (5 : ℝ)) fun _ _ => 7).1.isSome =
        true :=
  frozen_call_width3_restores (fun _ => ()) _ _ 3 rfl

/-- Distance of the freshly sampled goal from the robot: exactly the sampled
distance `d` (for `d ≥ 0`), since `(d cos θ)² + (d sin θ)² = d²`. -/
theorem dist2_resampleGoal (robot : ℝ × ℝ) (d θ : ℝ) (hd : 0 ≤ d) :
    dist2 robot (resampleGoal robot d θ) = d := by
  have h1 : (robot.1 + d * Real.cos θ - robot.1) ^ 2 +
      (robot.2 + d * Real.sin θ - robot.2) ^ 2 = d ^ 2 := by
    have h := Real.sin_sq_add_cos_sq θ
    nlinarith [h]
  simp only [dist2, resampleGoal]
  rw [h1, Real.sqrt_sq hd]

/-- C5: every resampled goal lies at a planar distance from the robot inside
the sampling range: `[1, 5]` (`goalDistanceRange`) for
`HierarchicalNavEnv._resample_goals`, and `cfg.distance_range` for
`UniformGoalPositionCommand._resample_command`, for every sampled distance
in the respective range and every angle. -/
theorem resampled_goal_distance_in_range {S A C : Type} {n : ℕ}
    (E : NavEnv S A C n) (st : NavState S n)
    (cfg : UniformGoalPositionCommandCfg) (robotPos : Fin n → ℝ × ℝ)
    (cmd : Fin n → ℝ × ℝ) (mask : Fin n → Bool) (d θ dc θc : Fin n → ℝ)
    (i : Fin n) (hm : mask i = true)
    (h1 : goalDistanceRange.1 ≤ d i) (h2 : d i ≤ goalDistanceRange.2)
    (hc0 : 0 ≤ cfg.distance_range.1)
    (hc1 : cfg.distance_range.1 ≤ dc i) (hc2 : dc i ≤ cfg.distance_range.2) :
    (goalDistanceRange.1 ≤
        dist2 (E.rootPos st.low i) ((resampleGoals E st mask d θ).goals i) ∧
      dist2 (E.rootPos st.low i) ((resampleGoals E st mask d θ).goals i) ≤
        goalDistanceRange.2) ∧
    (cfg.distance_range.1 ≤
        dist2 (robotPos i) (resample_command cfg robotPos cmd mask dc θc i) ∧
      dist2 (robotPos i) (resample_command cfg robotPos cmd mask dc θc i) ≤
        cfg.distance_range.2) := by
  have hd0 : 0 ≤ d i := le_trans (by norm_num [goalDistanceRange]) h1
  have hdc0 : 0 ≤ dc i := le_trans hc0 hc1
  constructor
  · simp only [resampleGoals, hm, if_true]
    rw [dist2_resampleGoal _ _ _ hd0]
    exact ⟨h1, h2⟩
  · simp only [resample_command, hm, if_true]
    rw [dist2_resampleGoal _ _ _ hdc0]
    exact ⟨hc1, hc2⟩

/-- C5, witness: robot at the origin, goals sampled at distances 2 and 3
with angle 0, default command configuration. -/
theorem resampled_goal_distance_in_range_witness :
    (goalDistanceRange.1 ≤
        dist2 (E0.rootPos st0.low 0)
          ((resampleGoals E0 st0 (fun _ => true) (fun _ => 2) fun _ => 0).goals 0) ∧
      dist2 (E0.rootPos st0.low 0)
          ((resampleGoals E0 st0 (fun _ => true) (fun _ => 2) fun _ => 0).goals 0) ≤
        goalDistanceRange.2) ∧
    (({} : UniformGoalPositionCommandCfg).distance_range.1 ≤
        dist2 ((0 : ℝ), (0 : ℝ))
          (resample_command {} (fun _ => (0, 0)) (fun _ => (0, 0)) (fun _ => true)
            (fun _ => 3) (fun _ => 0) (0 : Fin 1)) ∧
      dist2 ((0 : ℝ), (0 : ℝ))
          (resample_command {} (fun _ => (0, 0)) (fun _ => (0, 0)) (fun _ => true)
            (fun _ => 3) (fun _ => 0) (0 : Fin 1)) ≤
        ({} : UniformGoalPositionCommandCfg).distance_range.2) :=
  resampled_goal_distance_in_range E0 st0 {} (fun _ => (0, 0)) (fun _ => (0, 0))
    (fun _ => true) (fun _ => 2) (fun _ => 0) (fun _ => 3) (fun _ => 0) 0 rfl
    (by norm_num [goalDistanceRange]) (by norm_num [goalDistanceRange])
    (by norm_num) (by norm_num) (by norm_num)

/-- Rotating a unit vector preserves the unit norm. -/
theorem rot_norm (a b ψ : ℝ) (hab : a ^ 2 + b ^ 2 = 1) :
    (a * Real.cos ψ + b * Real.sin ψ) ^ 2 +
      (-a * Real.sin ψ + b * Real.cos ψ) ^ 2 = 1 := by
  have h1 : (a * Real.cos ψ + b * Real.sin ψ) ^ 2 +
      (-a * Real.sin ψ + b * Real.cos ψ) ^ 2 =
      (a ^ 2 + b ^ 2) * (Real.sin ψ ^ 2 + Real.cos ψ ^ 2) := by ring
  rw [h1, Real.sin_sq_add_cos_sq, hab, one_mul]

/-- First component of the inverse rotation. -/
theorem rot_back_x (a b ψ : ℝ) :
    (a * Real.cos ψ + b * Real.sin ψ) * Real.cos ψ -
      (-a * Real.sin ψ + b * Real.cos ψ) * Real.sin ψ = a := by
  have h1 : (a * Real.cos ψ + b * Real.sin ψ) * Real.cos ψ -
      (-a * Real.sin ψ + b * Real.cos ψ) * Real.sin ψ =
      a * (Real.sin ψ ^ 2 + Real.cos ψ ^ 2) := by ring
  rw [h1, Real.sin_sq_add_cos_sq, mul_one]

/-- Second component of the inverse rotation. -/
theorem rot_back_y (a b ψ : ℝ) :
    (a * Real.cos ψ + b * Real.sin ψ) * Real.sin ψ +
      (-a * Real.sin ψ + b * Real.cos ψ) * Real.cos ψ = b := by
  have h1 : (a * Real.cos ψ + b * Real.sin ψ) * Real.sin ψ +
      (-a * Real.sin ψ + b * Real.cos ψ) * Real.cos ψ =
      b * (Real.sin ψ ^ 2 + Real.cos ψ ^ 2) := by ring
  rw [h1, Real.sin_sq_add_cos_sq, mul_one]

/-- The shared arithmetic of the direction computation: when the distance is
at least `1e-6` the clamp is the identity, so the two rotated components of
`(dx, dy) / clamp(dist)` form a unit vector whose rotation back by `+ψ`
recovers `(dx / dist, dy / dist)`. -/
theorem dir_formula (a b D dx dy ψ : ℝ)
    (hD : D = Real.sqrt (dx ^ 2 + dy ^ 2))
    (ha : a = dx / max D (1 / 10 ^ 6)) (hb : b = dy / max D (1 / 10 ^ 6))
    (h : 1 / 10 ^ 6 ≤ D) :
    Real.sqrt ((a * Real.cos ψ + b * Real.sin ψ) ^ 2 +
        (-a * Real.sin ψ + b * Real.cos ψ) ^ 2) = 1 ∧
    (a * Real.cos ψ + b * Real.sin ψ) * Real.cos ψ -
        (-a * Real.sin ψ + b * Real.cos ψ) * Real.sin ψ = dx / D ∧
    (a * Real.cos ψ + b * Real.sin ψ) * Real.sin ψ +
        (-a * Real.sin ψ + b * Real.cos ψ) * Real.cos ψ = dy / D := by
  have hmax : max D (1 / 10 ^ 6) = D := max_eq_left h
  have h0 : (0 : ℝ) < D := lt_of_lt_of_le (by norm_num) h
  have hsq : D ^ 2 = dx ^ 2 + dy ^ 2 := by
    rw [hD]; exact Real.sq_sqrt (by positivity)
  have ha' : a = dx / D := by rw [ha, hmax]
  have hb' : b = dy / D := by rw [hb, hmax]
  subst ha' hb'
  have hab : (dx / D) ^ 2 + (dy / D) ^ 2 = 1 := by
    field_simp
    linarith [hsq]
  refine ⟨?_, rot_back_x _ _ _, rot_back_y _ _ _⟩
  rw [rot_norm _ _ _ hab, Real.sqrt_one]

/-- C6: in every high-level observation (and likewise in
`direction_to_goal`), whenever the robot-goal distance is at least `1e-6`,
the two direction components form the world-frame unit vector to the goal
rotated by minus the yaw: they have unit Euclidean norm, and rotating them
back by plus the yaw recovers `(goal - robot) / distance`. -/
theorem direction_unit_and_recovers {S A C : Type} {n : ℕ}
    (E : NavEnv S A C n) (st : NavState S n) (i : Fin n) (q : Quat)
    (robot goal : ℝ × ℝ)
    (h1 : 1 / 10 ^ 6 ≤ (highLevelObs E st i).dist)
    (h2 : 1 / 10 ^ 6 ≤ dist2 robot goal) :
    (Real.sqrt ((highLevelObs E st i).dirx ^ 2 + (highLevelObs E st i).diry ^ 2) = 1 ∧
      (highLevelObs E st i).dirx * Real.cos (highLevelObs E st i).yaw -
          (highLevelObs E st i).diry * Real.sin (highLevelObs E st i).yaw =
        ((st.goals i).1 - (E.rootPos st.low i).1) / (highLevelObs E st i).dist ∧
      (highLevelObs E st i).dirx * Real.sin (highLevelObs E st i).yaw +
          (highLevelObs E st i).diry * Real.cos (highLevelObs E st i).yaw =
        ((st.goals i).2 - (E.rootPos st.low i).2) / (highLevelObs E st i).dist) ∧
    (Real.sqrt ((direction_to_goal q robot goal).1 ^ 2 +
        (direction_to_goal q robot goal).2 ^ 2) = 1 ∧
      (direction_to_goal q robot goal).1 * Real.cos (robot_yaw q) -
          (direction_to_goal q robot goal).2 * Real.sin (robot_yaw q) =
        (goal.1 - robot.1) / dist2 robot goal ∧
      (direction_to_goal q robot goal).1 * Real.sin (robot_yaw q) +
          (direction_to_goal q robot goal).2 * Real.cos (robot_yaw q) =
        (goal.2 - robot.2) / dist2 robot goal) :=
  ⟨dir_formula _ _ _ _ _ _ rfl rfl rfl h1,
   dir_formula _ _ _ _ _ _ rfl rfl rfl h2⟩

/-- C6, witness: robot at the origin with identity orientation, stored goal
`(3, 4)` (distance 5), and `direction_to_goal` at goal `(0, 2)`
(distance 2). -/
theorem direction_unit_and_recovers_witness :
    (Real.sqrt ((highLevelObs E0 st0 0).dirx ^ 2 + (highLevelObs E0 st0 0).diry ^ 2) = 1 ∧
      (highLevelObs E0 st0 0).dirx * Real.cos (highLevelObs E0 st0 0).yaw -
          (highLevelObs E0 st0 0).diry * Real.sin (highLevelObs E0 st0 0).yaw =
        ((st0.goals 0).1 - (E0.rootPos st0.low 0).1) / (highLevelObs E0 st0 0).dist ∧
      (highLevelObs E0 st0 0).dirx * Real.sin (highLevelObs E0 st0 0).yaw +
          (highLevelObs E0 st0 0).diry * Real.cos (highLevelObs E0 st0 0).yaw =
        ((st0.goals 0).2 - (E0.rootPos st0.low 0).2) / (highLevelObs E0 st0 0).dist) ∧
    (Real.sqrt ((direction_to_goal (Quat.mk 1 0 0 0) (0, 0) (0, 2)).1 ^ 2 +
        (direction_to_goal (Quat.mk 1 0 0 0) (0, 0) (0, 2)).2 ^ 2) = 1 ∧
      (direction_to_goal (Quat.mk 1 0 0 0) (0, 0) (0, 2)).1 *
            Real.cos (robot_yaw (Quat.mk 1 0 0 0)) -
          (direction_to_goal (Quat.mk 1 0 0 0) (0, 0) (0, 2)).2 *
            Real.sin (robot_yaw (Quat.mk 1 0 0 0)) =
        ((0, 2).1 - ((0 : ℝ), (0 : ℝ)).1) / dist2 (0, 0) (0, 2) ∧
      (direction_to_goal (Quat.mk 1 0 0 0) (0, 0) (0, 2)).1 *
            Real.sin (robot_yaw (Quat.mk 1 0 0 0)) +
          (direction_to_goal (Quat.mk 1 0 0 0) (0, 0) (0, 2)).2 *
            Real.cos (robot_yaw (Quat.mk 1 0 0 0)) =
        ((0, 2).2 - ((0 : ℝ), (0 : ℝ)).2) / dist2 (0, 0) (0, 2)) :=
  direction_unit_and_recovers E0 st0 0 (Quat.mk 1 0 0 0) (0, 0) (0, 2)
    (by
      show (1 / 10 ^ 6 : ℝ) ≤ Real.sqrt (((3 : ℝ) - 0) ^ 2 + ((4 : ℝ) - 0) ^ 2)
      have h5 : Real.sqrt (((3 : ℝ) - 0) ^ 2 + ((4 : ℝ) - 0) ^ 2) = 5 := by
        rw [show (((3 : ℝ) - 0) ^ 2 + ((4 : ℝ) - 0) ^ 2) = 5 ^ 2 by norm_num]
        exact Real.sqrt_sq (by norm_num)
      rw [h5]; norm_num)
    (by
      show (1 / 10 ^ 6 : ℝ) ≤ Real.sqrt (((0 : ℝ) - 0) ^ 2 + ((2 : ℝ) - 0) ^ 2)
      have h2 : Real.sqrt (((0 : ℝ) - 0) ^ 2 + ((2 : ℝ) - 0) ^ 2) = 2 := by
        rw [show (((0 : ℝ) - 0) ^ 2 + ((2 : ℝ) - 0) ^ 2) = 2 ^ 2 by norm_num]
        exact Real.sqrt_sq (by norm_num)
      rw [h2]; norm_num)

/-- The decimation loop hands the frozen policy wrapper the same, unchanged
high-level command at every one of its `k` iterations. -/
theorem stepLoop_trace {S A C : Type} {n : ℕ} (E : NavEnv S A C n) (cmd : C) :
    ∀ (k : ℕ) (s : S), (stepLoop E cmd k s).2.1 = List.replicate k cmd := by
  intro k
  induction k with
  | zero => intro s; rfl
  | succ t ih => intro s; simp [stepLoop, ih, List.replicate_succ]

/-- The decimation loop is exactly `k` applications of one low-level step
driven by the frozen policy wrapper. -/
theorem stepLoop_fst {S A C : Type} {n : ℕ} (E : NavEnv S A C n) (cmd : C) :
    ∀ (k : ℕ) (s : S),
      (stepLoop E cmd k s).1 =
        (fun s => (E.lowStep s (E.policyWrapper cmd s)).1)^[k] s := by
  intro k
  induction k with
  | zero => intro s; rfl
  | succ t ih => intro s; simp [stepLoop, ih, Function.iterate_succ_apply]

/-- C1: a successful `HierarchicalNavEnv.step` runs the low-level
`env.step` exactly `decimation` times (one per entry of the loop trace, all
carrying the same unchanged high-level command), the post-loop low-level
state is the `decimation`-fold iterate of a single policy-driven low step,
the returned high-level observations are computed from that post-loop
state, and `decimation` defaults to 10. -/
theorem step_decimation_spec {S A C : Type} {n : ℕ} (E : NavEnv S A C n)
    (cmd : C) (st : NavState S n) (r : StepResult S n)
    (h : step E cmd st = some r) :
    (stepLoop E cmd E.decimation st.low).2.1 = List.replicate E.decimation cmd ∧
    (stepLoop E cmd E.decimation st.low).1 =
      (fun s => (E.lowStep s (E.policyWrapper cmd s)).1)^[E.decimation] st.low ∧
    r.obs = highLevelObs E { st with low := (stepLoop E cmd E.decimation st.low).1 } ∧
    ({ lowStep := E.lowStep, lowReset := E.lowReset,
       policyWrapper := E.policyWrapper, rootPos := E.rootPos,
       rootQuat := E.rootQuat } : NavEnv S A C n).decimation = 10 := by
  refine ⟨stepLoop_trace E cmd E.decimation st.low,
    stepLoop_fst E cmd E.decimation st.low, ?_, rfl⟩
  simp only [step] at h
  cases hld : (stepLoop E cmd E.decimation st.low).2.2 with
  | none => rw [hld] at h; exact Option.noConfusion h
  | some ld =>
      rw [hld] at h
      simp only [Option.some.injEq] at h
      subst h
      rfl

/-- C1, witness: one step of the concrete one-environment instance with
decimation 1. -/
theorem step_decimation_spec_witness :
    (stepLoop E0 () E0.decimation st0.low).2.1 = List.replicate E0.decimation () ∧
    (stepLoop E0 () E0.decimation st0.low).1 =
      (fun s => (E0.lowStep s (E0.policyWrapper () s)).1)^[E0.decimation] st0.low ∧
    r0.obs = highLevelObs E0 { st0 with low := (stepLoop E0 () E0.decimation st0.low).1 } ∧
    ({ lowStep := E0.lowStep, lowReset := E0.lowReset,
       policyWrapper := E0.policyWrapper, rootPos := E0.rootPos,
       rootQuat := E0.rootQuat } : NavEnv Unit Unit Unit 1).decimation = 10 :=
  step_decimation_spec E0 () st0 r0 rfl

/-- C3: the high-level terminated flag of environment `i` is true iff the
2D distance from the (post-loop) robot position to the stored goal is
strictly below 0.5, or the low-level done flag of the last decimated
low-level step is set. -/
theorem step_terminated_iff {S A C : Type} {n : ℕ} (E : NavEnv S A C n)
    (cmd : C) (st : NavState S n) (r : StepResult S n) (ld : Fin n → Bool)
    (h : step E cmd st = some r)
    (hld : (stepLoop E cmd E.decimation st.low).2.2 = some ld) (i : Fin n) :
    r.terminated i = true ↔
      (distanceToGoal E { st with low := (stepLoop E cmd E.decimation st.low).1 } i < 0.5 ∨
        ld i = true) := by
  simp only [step] at h
  rw [hld] at h
  simp only [Option.some.injEq] at h
  subst h
  simp [computeHighLevelTerminations, computeHighLevelRewards, distanceToGoal,
    Bool.or_eq_true, decide_eq_true_iff]

/-- C3, witness: the concrete instance terminates (the low-level done flag
is set, and indeed the goal at distance 5 is not reached). -/
theorem step_terminated_iff_witness :
    r0.terminated 0 = true ↔
      (distanceToGoal E0 { st0 with low := (stepLoop E0 () E0.decimation st0.low).1 } 0 < 0.5 ∨
        true = true) :=
  step_terminated_iff E0 () st0 r0 (fun _ => true) rfl rfl 0

/-- C9: the high-level truncated flag implies the high-level terminated
flag: `truncated` is the low-level done flag alone while `terminated` also
disjoins goal-reaching, so `terminated = false ∧ truncated = true` never
occurs. -/
theorem step_truncated_implies_terminated {S A C : Type} {n : ℕ}
    (E : NavEnv S A C n) (cmd : C) (st : NavState S n) (r : StepResult S n)
    (h : step E cmd st = some r) (i : Fin n)
    (ht : r.truncated i = true) : r.terminated i = true := by
  simp only [step] at h
  cases hld : (stepLoop E cmd E.decimation st.low).2.2 with
  | none => rw [hld] at h; exact Option.noConfusion h
  | some ld =>
      rw [hld] at h
      simp only [Option.some.injEq] at h
      subst h
      simp only [computeHighLevelTerminations] at ht ⊢
      rw [ht, Bool.or_true]

/-- C9, witness: in the concrete instance the low-level done flag is set, so
both flags are true. -/
theorem step_truncated_implies_terminated_witness : r0.terminated 0 = true :=
  step_truncated_implies_terminated E0 () st0 r0 rfl 0 rfl

/-- C4: the high-level reward of environment `i` is
`exp(-d / 0.25) + 0.5 * (d_prev - d)` where `d` is the current (post-loop)
robot-goal distance and `d_prev` the distance stored by the previous reward
computation (`getD` falls back to `d` itself when `None`); the new state
stores the current distances, and on the first step after reset (stored
distance `None`) the progress term vanishes. -/
theorem step_reward_formula {S A C : Type} {n : ℕ} (E : NavEnv S A C n)
    (cmd : C) (st : NavState S n) (r : StepResult S n)
    (h : step E cmd st = some r) (i : Fin n) :
    r.rew i =
      Real.exp
          (-distanceToGoal E { st with low := (stepLoop E cmd E.decimation st.low).1 } i /
            0.25) +
        0.5 *
          ((st.prevDist.getD fun k =>
              distanceToGoal E { st with low := (stepLoop E cmd E.decimation st.low).1 } k) i -
            distanceToGoal E { st with low := (stepLoop E cmd E.decimation st.low).1 } i) ∧
    r.state.prevDist =
      some (fun k =>
        distanceToGoal E { st with low := (stepLoop E cmd E.decimation st.low).1 } k) ∧
    (st.prevDist = none →
      r.rew i =
        Real.exp
          (-distanceToGoal E { st with low := (stepLoop E cmd E.decimation st.low).1 } i /
            0.25)) := by
  simp only [step] at h
  cases hld : (stepLoop E cmd E.decimation st.low).2.2 with
  | none => rw [hld] at h; exact Option.noConfusion h
  | some ld =>
      rw [hld] at h
      simp only [Option.some.injEq] at h
      subst h
      refine ⟨?_, rfl, ?_⟩
      · show Real.exp (-distanceToGoal E _ i / (0.5 : ℝ) ^ 2) + _ = _
        norm_num
      · intro hnone
        show Real.exp (-distanceToGoal E _ i / (0.5 : ℝ) ^ 2) + _ = _
        rw [hnone]
        show Real.exp _ + 0.5 * (distanceToGoal E _ i - distanceToGoal E _ i) = _
        norm_num

/-- C4, witness: the concrete instance starts with no stored previous
distance, so all three conjuncts apply with `d_prev = d`. -/
theorem step_reward_formula_witness :
    r0.rew 0 =
      Real.exp
          (-distanceToGoal E0 { st0 with low := (stepLoop E0 () E0.decimation st0.low).1 } 0 /
            0.25) +
        0.5 *
          ((st0.prevDist.getD fun k =>
              distanceToGoal E0 { st0 with low := (stepLoop E0 () E0.decimation st0.low).1 } k) 0 -
            distanceToGoal E0 { st0 with low := (stepLoop E0 () E0.decimation st0.low).1 } 0) ∧
    r0.state.prevDist =
      some (fun k =>
        distanceToGoal E0 { st0 with low := (stepLoop E0 () E0.decimation st0.low).1 } k) ∧
    (st0.prevDist = none →
      r0.rew 0 =
        Real.exp
          (-distanceToGoal E0 { st0 with low := (stepLoop E0 () E0.decimation st0.low).1 } 0 /
            0.25)) :=
  step_reward_formula E0 () st0 r0 rfl 0

/-- C10: the value logged under `Episode_Reward/progress` is exactly 0: the
reward computation has already overwritten the stored previous distance
with the current one, and the logging code recomputes the difference from
the same unchanged robot and goal state. -/
theorem step_logged_progress_zero {S A C : Type} {n : ℕ} (E : NavEnv S A C n)
    (cmd : C) (st : NavState S n) (r : StepResult S n)
    (h : step E cmd st = some r) : r.info.progressMean = 0 := by
  simp only [step] at h
  cases hld : (stepLoop E cmd E.decimation st.low).2.2 with
  | none => rw [hld] at h; exact Option.noConfusion h
  | some ld =>
      rw [hld] at h
      simp only [Option.some.injEq] at h
      subst h
      show mean (fun i => _ - _) = 0
      simp [mean, computeHighLevelRewards, distanceToGoal]

/-- C10, witness: the logged progress metric of the concrete step is 0. -/
theorem step_logged_progress_zero_witness : r0.info.progressMean = 0 :=
  step_logged_progress_zero E0 () st0 r0 rfl

/-- Evaluation of Python `int` on a concrete nonnegative value. -/
theorem pyIntNat_eval (x : ℝ) (k : ℕ) (h1 : (k : ℝ) ≤ x) (h2 : x < k + 1) :
    pyIntNat x = k := by
  have hx : (0 : ℝ) ≤ x := le_trans (by positivity) h1
  have hfl : ⌊x⌋ = (k : ℤ) := by
    rw [Int.floor_eq_iff]
    constructor
    · exact_mod_cast h1
    · exact_mod_cast h2
  simp [pyIntNat, pyInt, if_pos hx, hfl]

/-- The loop's scale in pass 0 is the initial scale. -/
theorem octaveScale_zero (lac : ℝ) (xs : ℕ) : octaveScale lac xs 0 = xs := rfl

/-- Peeling one pass off the scale iteration. -/
theorem octaveScale_succ_left (lac : ℝ) (xs k : ℕ) :
    octaveScale lac xs (k + 1) = octaveScale lac (pyIntNat (lac * xs)) k :=
  Function.iterate_succ_apply _ _ _

/-- Closed form of the octave loop of `generate_fractal_noise_2d`: when
every pass's arrays align, the loop returns the array whose entry is the sum
over passes `k` of `amp * gain^k` times the Perlin noise at the iterated
scales `octaveScale lac xs k`, each scaled by `z`. -/
theorem fractalLoop_closed (sx sy : ℕ) (lac gain z : ℝ) :
    ∀ (m : ℕ) (amp : ℝ) (xs ys : ℕ) (ang : ℕ → ℕ → ℕ → ℝ),
      (∀ k, k < m →
        perlinAligned sx sy (octaveScale lac xs k) (octaveScale lac ys k)) →
      fractalLoop sx sy lac gain z m amp xs ys ang =
        some (fun i j => ∑ k ∈ Finset.range m,
          amp * gain ^ k *
            perlinNoiseAt sx sy (octaveScale lac xs k) (octaveScale lac ys k)
              (ang k) i j * z) := by
  intro m
  induction m with
  | zero =>
      intro amp xs ys ang _
      simp [fractalLoop]
  | succ t ih =>
      intro amp xs ys ang hal
      have h0 : perlinAligned sx sy xs ys := by
        have h := hal 0 (Nat.succ_pos t)
        simpa [octaveScale_zero] using h
      have hrec : ∀ k, k < t →
          perlinAligned sx sy (octaveScale lac (pyIntNat (lac * xs)) k)
            (octaveScale lac (pyIntNat (lac * ys)) k) := by
        intro k hk
        have h := hal (k + 1) (Nat.succ_lt_succ hk)
        simpa [octaveScale_succ_left] using h
      have hg : generate_perlin_noise_2d sx sy xs ys (ang 0) =
          some (perlinNoiseAt sx sy xs ys (ang 0)) := by
        rw [generate_perlin_noise_2d, if_pos h0]
      rw [fractalLoop, hg,
        ih (amp * gain) (pyIntNat (lac * xs)) (pyIntNat (lac * ys))
          (fun t => ang (t + 1)) hrec]
      simp only [Option.some_bind, Option.map_some', Option.some.injEq]
      funext i j
      rw [Finset.sum_range_succ']
      have hsum : (∑ k ∈ Finset.range t,
          amp * gain ^ (k + 1) *
            perlinNoiseAt sx sy (octaveScale lac xs (k + 1))
              (octaveScale lac ys (k + 1)) (ang (k + 1)) i j * z) =
          ∑ k ∈ Finset.range t,
            amp * gain * gain ^ k *
              perlinNoiseAt sx sy (octaveScale lac (pyIntNat (lac * xs)) k)
                (octaveScale lac (pyIntNat (lac * ys)) k) (ang (k + 1)) i j * z := by
        refine Finset.sum_congr rfl fun k _ => ?_
        rw [octaveScale_succ_left lac xs k, octaveScale_succ_left lac ys k, pow_succ]
        ring
      rw [hsum, octaveScale_zero, octaveScale_zero]
      rw [pow_zero]
      ring

/-- The loop's scale in pass 1 is one application of `int(lacunarity * _)`. -/
theorem octaveScale_one (lac : ℝ) (xs : ℕ) :
    octaveScale lac xs 1 = pyIntNat (lac * xs) := rfl

/-- When the octave loop returns an array (no exception was raised), every
one of its passes was aligned. -/
theorem fractalLoop_aligned_of_isSome (sx sy : ℕ) (lac gain z : ℝ) :
    ∀ (m : ℕ) (amp : ℝ) (xs ys : ℕ) (ang : ℕ → ℕ → ℕ → ℝ),
      (fractalLoop sx sy lac gain z m amp xs ys ang).isSome = true →
      ∀ k, k < m →
        perlinAligned sx sy (octaveScale lac xs k) (octaveScale lac ys k) := by
  intro m
  induction m with
  | zero =>
      intro amp xs ys ang _ k hk
      exact absurd hk (Nat.not_lt_zero k)
  | succ t ih =>
      intro amp xs ys ang hs k hk
      rw [fractalLoop] at hs
      by_cases h0 : perlinAligned sx sy xs ys
      · rw [generate_perlin_noise_2d, if_pos h0, Option.some_bind,
          Option.isSome_map'] at hs
        cases k with
        | zero => simpa [octaveScale_zero] using h0
        | succ u =>
            have h := ih (amp * gain) (pyIntNat (lac * xs)) (pyIntNat (lac * ys))
              (fun t => ang (t + 1)) hs u (Nat.lt_of_succ_lt_succ hk)
            simpa [octaveScale_succ_left] using h
      · exfalso
        rw [generate_perlin_noise_2d, if_neg h0] at hs
        simp at hs

/-- C8, counterexample: the claim fails in two ways at concrete terrain
configurations.  On `cfgBad` (two octaves, second grid scale 4 against a
2-pixel heightfield) the generation raises instead of returning a
heightfield.  On `cfgFrac` (lacunarity 1.5) the program runs, but its third
octave uses grid scale `int(1.5 * 3) = 4`, not the `2 * 1.5² = 4.5` that the
claimed octave-to-octave multiplication of the frequency by
`fractal_lacunarity` asserts. -/
theorem perlin_terrain_claim_false :
    perlin_terrain cfgBad (fun _ _ _ => 0) = none ∧
    (perlin_terrain cfgFrac (fun _ _ _ => 0)).isSome = true ∧
    octaveScale cfgFrac.fractal_lacunarity
        (pyIntNat cfgFrac.frequency * pyIntNat cfgFrac.size.1) 2 = 4 ∧
    ((octaveScale cfgFrac.fractal_lacunarity
          (pyIntNat cfgFrac.frequency * pyIntNat cfgFrac.size.1) 2 : ℕ) : ℝ) ≠
      cfgFrac.fractal_lacunarity ^ 2 *
        ((pyIntNat cfgFrac.frequency * pyIntNat cfgFrac.size.1 : ℕ) : ℝ) := by
  have eBw : pyIntNat (cfgBad.size.1 / cfgBad.horizontal_scale) = 2 :=
    pyIntNat_eval _ 2 (by norm_num [cfgBad]) (by norm_num [cfgBad])
  have eBl : pyIntNat (cfgBad.size.2 / cfgBad.horizontal_scale) = 2 :=
    pyIntNat_eval _ 2 (by norm_num [cfgBad]) (by norm_num [cfgBad])
  have eBx : pyIntNat cfgBad.size.1 = 2 :=
    pyIntNat_eval _ 2 (by norm_num [cfgBad]) (by norm_num [cfgBad])
  have eBy : pyIntNat cfgBad.size.2 = 2 :=
    pyIntNat_eval _ 2 (by norm_num [cfgBad]) (by norm_num [cfgBad])
  have eBf : pyIntNat cfgBad.frequency = 1 :=
    pyIntNat_eval _ 1 (by norm_num [cfgBad]) (by norm_num [cfgBad])
  have eBo : cfgBad.fractal_octaves = 2 := rfl
  have eB2 : pyIntNat (cfgBad.fractal_lacunarity * ((1 * 2 : ℕ) : ℝ)) = 4 :=
    pyIntNat_eval _ 4 (by norm_num [cfgBad]) (by norm_num [cfgBad])
  have sBx : octaveScale cfgBad.fractal_lacunarity
      (pyIntNat cfgBad.frequency * pyIntNat cfgBad.size.1) 1 = 4 := by
    rw [eBf, eBx, octaveScale_one, eB2]
  have sBy : octaveScale cfgBad.fractal_lacunarity
      (pyIntNat cfgBad.frequency * pyIntNat cfgBad.size.2) 1 = 4 := by
    rw [eBf, eBy, octaveScale_one, eB2]
  have eFf : pyIntNat cfgFrac.frequency = 1 :=
    pyIntNat_eval _ 1 (by norm_num [cfgFrac]) (by norm_num [cfgFrac])
  have eFx : pyIntNat cfgFrac.size.1 = 2 :=
    pyIntNat_eval _ 2 (by norm_num [cfgFrac]) (by norm_num [cfgFrac])
  have eFy : pyIntNat cfgFrac.size.2 = 2 :=
    pyIntNat_eval _ 2 (by norm_num [cfgFrac]) (by norm_num [cfgFrac])
  have eFw : pyIntNat (cfgFrac.size.1 / cfgFrac.horizontal_scale) = 12 :=
    pyIntNat_eval _ 12 (by norm_num [cfgFrac]) (by norm_num [cfgFrac])
  have eFl : pyIntNat (cfgFrac.size.2 / cfgFrac.horizontal_scale) = 12 :=
    pyIntNat_eval _ 12 (by norm_num [cfgFrac]) (by norm_num [cfgFrac])
  have eFo : cfgFrac.fractal_octaves = 3 := rfl
  have eF1 : pyIntNat (cfgFrac.fractal_lacunarity * ((1 * 2 : ℕ) : ℝ)) = 3 :=
    pyIntNat_eval _ 3 (by norm_num [cfgFrac]) (by norm_num [cfgFrac])
  have eF2 : pyIntNat (cfgFrac.fractal_lacunarity * ((3 : ℕ) : ℝ)) = 4 :=
    pyIntNat_eval _ 4 (by norm_num [cfgFrac]) (by norm_num [cfgFrac])
  have sFx : octaveScale cfgFrac.fractal_lacunarity
      (pyIntNat cfgFrac.frequency * pyIntNat cfgFrac.size.1) 2 = 4 := by
    rw [show (2 : ℕ) = 1 + 1 from rfl, octaveScale_succ_left, octaveScale_one,
      eFf, eFx, eF1, eF2]
  have sFy : octaveScale cfgFrac.fractal_lacunarity
      (pyIntNat cfgFrac.frequency * pyIntNat cfgFrac.size.2) 2 = 4 := by
    rw [show (2 : ℕ) = 1 + 1 from rfl, octaveScale_succ_left, octaveScale_one,
      eFf, eFy, eF1, eF2]
  have halF : ∀ k, k < cfgFrac.fractal_octaves →
      perlinAligned (pyIntNat (cfgFrac.size.1 / cfgFrac.horizontal_scale))
        (pyIntNat (cfgFrac.size.2 / cfgFrac.horizontal_scale))
        (octaveScale cfgFrac.fractal_lacunarity
          (pyIntNat cfgFrac.frequency * pyIntNat cfgFrac.size.1) k)
        (octaveScale cfgFrac.fractal_lacunarity
          (pyIntNat cfgFrac.frequency * pyIntNat cfgFrac.size.2) k) := by
    intro k hk
    rw [eFo] at hk
    rw [eFw, eFl]
    interval_cases k
    · rw [octaveScale_zero, octaveScale_zero, eFf, eFx, eFy]
      decide
    · rw [octaveScale_one, octaveScale_one, eFf, eFx, eFy, eF1]
      decide
    · rw [sFx, sFy]
      decide
  refine ⟨?_, ?_, sFx, ?_⟩
  · have hGB : generate_fractal_noise_2d (pyIntNat cfgBad.size.1)
        (pyIntNat cfgBad.size.2)
        (pyIntNat (cfgBad.size.1 / cfgBad.horizontal_scale))
        (pyIntNat (cfgBad.size.2 / cfgBad.horizontal_scale))
        (pyIntNat cfgBad.frequency) cfgBad.fractal_octaves
        cfgBad.fractal_lacunarity cfgBad.fractal_gain
        ((pyInt (cfgBad.z_scale / cfgBad.vertical_scale) : ℤ) : ℝ)
        (fun _ _ _ => 0) = none := by
      rw [generate_fractal_noise_2d]
      cases hfl : fractalLoop (pyIntNat (cfgBad.size.1 / cfgBad.horizontal_scale))
          (pyIntNat (cfgBad.size.2 / cfgBad.horizontal_scale))
          cfgBad.fractal_lacunarity cfgBad.fractal_gain
          ((pyInt (cfgBad.z_scale / cfgBad.vertical_scale) : ℤ) : ℝ)
          cfgBad.fractal_octaves 1
          (pyIntNat cfgBad.frequency * pyIntNat cfgBad.size.1)
          (pyIntNat cfgBad.frequency * pyIntNat cfgBad.size.2)
          (fun _ _ _ => 0) with
      | none => rfl
      | some v =>
          exfalso
          have hs : (fractalLoop (pyIntNat (cfgBad.size.1 / cfgBad.horizontal_scale))
              (pyIntNat (cfgBad.size.2 / cfgBad.horizontal_scale))
              cfgBad.fractal_lacunarity cfgBad.fractal_gain
              ((pyInt (cfgBad.z_scale / cfgBad.vertical_scale) : ℤ) : ℝ)
              cfgBad.fractal_octaves 1
              (pyIntNat cfgBad.frequency * pyIntNat cfgBad.size.1)
              (pyIntNat cfgBad.frequency * pyIntNat cfgBad.size.2)
              (fun _ _ _ => 0)).isSome = true := by
            rw [hfl]
            rfl
          have hall := fractalLoop_aligned_of_isSome
            (pyIntNat (cfgBad.size.1 / cfgBad.horizontal_scale))
            (pyIntNat (cfgBad.size.2 / cfgBad.horizontal_scale))
            cfgBad.fractal_lacunarity cfgBad.fractal_gain
            ((pyInt (cfgBad.z_scale / cfgBad.vertical_scale) : ℤ) : ℝ)
            cfgBad.fractal_octaves 1
            (pyIntNat cfgBad.frequency * pyIntNat cfgBad.size.1)
            (pyIntNat cfgBad.frequency * pyIntNat cfgBad.size.2)
            (fun _ _ _ => 0) hs 1 (by rw [eBo]; norm_num)
          rw [eBw, eBl, sBx, sBy] at hall
          exact absurd hall (by decide)
    rw [perlin_terrain, hGB]
    rfl
  · rw [perlin_terrain, generate_fractal_noise_2d,
      fractalLoop_closed (pyIntNat (cfgFrac.size.1 / cfgFrac.horizontal_scale))
        (pyIntNat (cfgFrac.size.2 / cfgFrac.horizontal_scale))
        cfgFrac.fractal_lacunarity cfgFrac.fractal_gain
        ((pyInt (cfgFrac.z_scale / cfgFrac.vertical_scale) : ℤ) : ℝ)
        cfgFrac.fractal_octaves 1
        (pyIntNat cfgFrac.frequency * pyIntNat cfgFrac.size.1)
        (pyIntNat cfgFrac.frequency * pyIntNat cfgFrac.size.2)
        (fun _ _ _ => 0) halF]
    rfl
  · rw [sFx, eFf, eFx]
    norm_num [cfgFrac]

/-- C8, amended: whenever every octave's grid arrays align (positive scales
dividing the pixel shape — otherwise the generation raises, see the
counterexample), `perlin_terrain` returns a heightfield of shape
`(int(size[0]/horizontal_scale), int(size[1]/horizontal_scale))` (the index
types below) whose entry at `(i, j)` rounds to the nearest integer the sum
of `fractal_octaves` octaves of 2D Perlin noise, octave `k` carrying
amplitude `fractal_gain^k` at the grid scales obtained by `k` applications
of `int(fractal_lacunarity * _)` — equal to multiplication by the
lacunarity exactly when the products are integers, as for the default
lacunarity 2 — each octave scaled by `int(z_scale / vertical_scale)`. -/
theorem perlin_terrain_fractal_sum (cfg : HfPerlinTerrainCfg)
    (ang : ℕ → ℕ → ℕ → ℝ)
    (hal : ∀ k, k < cfg.fractal_octaves →
      perlinAligned (pyIntNat (cfg.size.1 / cfg.horizontal_scale))
        (pyIntNat (cfg.size.2 / cfg.horizontal_scale))
        (octaveScale cfg.fractal_lacunarity
          (pyIntNat cfg.frequency * pyIntNat cfg.size.1) k)
        (octaveScale cfg.fractal_lacunarity
          (pyIntNat cfg.frequency * pyIntNat cfg.size.2) k)) :
    perlin_terrain cfg ang =
      some (fun (i : Fin (pyIntNat (cfg.size.1 / cfg.horizontal_scale)))
          (j : Fin (pyIntNat (cfg.size.2 / cfg.horizontal_scale))) =>
        int16ofInt (nprint (∑ k ∈ Finset.range cfg.fractal_octaves,
          cfg.fractal_gain ^ k *
            perlinNoiseAt (pyIntNat (cfg.size.1 / cfg.horizontal_scale))
              (pyIntNat (cfg.size.2 / cfg.horizontal_scale))
              (octaveScale cfg.fractal_lacunarity
                (pyIntNat cfg.frequency * pyIntNat cfg.size.1) k)
              (octaveScale cfg.fractal_lacunarity
                (pyIntNat cfg.frequency * pyIntNat cfg.size.2) k)
              (ang k) (i : ℕ) (j : ℕ) *
            ((pyInt (cfg.z_scale / cfg.vertical_scale) : ℤ) : ℝ)))) := by
  rw [perlin_terrain, generate_fractal_noise_2d,
    fractalLoop_closed (pyIntNat (cfg.size.1 / cfg.horizontal_scale))
      (pyIntNat (cfg.size.2 / cfg.horizontal_scale)) cfg.fractal_lacunarity
      cfg.fractal_gain ((pyInt (cfg.z_scale / cfg.vertical_scale) : ℤ) : ℝ)
      cfg.fractal_octaves 1 (pyIntNat cfg.frequency * pyIntNat cfg.size.1)
      (pyIntNat cfg.frequency * pyIntNat cfg.size.2) ang hal]
  simp only [Option.map_some', Option.some.injEq, one_mul]

/-- C8, witness: the concrete configuration `cfg0` (one octave, grid scale 2
against a 2-pixel heightfield) with all gradient angles 0. -/
theorem perlin_terrain_fractal_sum_witness :
    (∀ k, k < cfg0.fractal_octaves →
      perlinAligned (pyIntNat (cfg0.size.1 / cfg0.horizontal_scale))
        (pyIntNat (cfg0.size.2 / cfg0.horizontal_scale))
        (octaveScale cfg0.fractal_lacunarity
          (pyIntNat cfg0.frequency * pyIntNat cfg0.size.1) k)
        (octaveScale cfg0.fractal_lacunarity
          (pyIntNat cfg0.frequency * pyIntNat cfg0.size.2) k)) ∧
    perlin_terrain cfg0 (fun _ _ _ => 0) =
      some (fun (i : Fin (pyIntNat (cfg0.size.1 / cfg0.horizontal_scale)))
          (j : Fin (pyIntNat (cfg0.size.2 / cfg0.horizontal_scale))) =>
        int16ofInt (nprint (∑ k ∈ Finset.range cfg0.fractal_octaves,
          cfg0.fractal_gain ^ k *
            perlinNoiseAt (pyIntNat (cfg0.size.1 / cfg0.horizontal_scale))
              (pyIntNat (cfg0.size.2 / cfg0.horizontal_scale))
              (octaveScale cfg0.fractal_lacunarity
                (pyIntNat cfg0.frequency * pyIntNat cfg0.size.1) k)
              (octaveScale cfg0.fractal_lacunarity
                (pyIntNat cfg0.frequency * pyIntNat cfg0.size.2) k)
              ((fun _ _ _ => (0 : ℝ)) k) (i : ℕ) (j : ℕ) *
            ((pyInt (cfg0.z_scale / cfg0.vertical_scale) : ℤ) : ℝ)))) := by
  have e0w : pyIntNat (cfg0.size.1 / cfg0.horizontal_scale) = 2 :=
    pyIntNat_eval _ 2 (by norm_num [cfg0]) (by norm_num [cfg0])
  have e0l : pyIntNat (cfg0.size.2 / cfg0.horizontal_scale) = 2 :=
    pyIntNat_eval _ 2 (by norm_num [cfg0]) (by norm_num [cfg0])
  have e0x : pyIntNat cfg0.size.1 = 2 :=
    pyIntNat_eval _ 2 (by norm_num [cfg0]) (by norm_num [cfg0])
  have e0y : pyIntNat cfg0.size.2 = 2 :=
    pyIntNat_eval _ 2 (by norm_num [cfg0]) (by norm_num [cfg0])
  have e0f : pyIntNat cfg0.frequency = 1 :=
    pyIntNat_eval _ 1 (by norm_num [cfg0]) (by norm_num [cfg0])
  have hal0 : ∀ k, k < cfg0.fractal_octaves →
      perlinAligned (pyIntNat (cfg0.size.1 / cfg0.horizontal_scale))
        (pyIntNat (cfg0.size.2 / cfg0.horizontal_scale))
        (octaveScale cfg0.fractal_lacunarity
          (pyIntNat cfg0.frequency * pyIntNat cfg0.size.1) k)
        (octaveScale cfg0.fractal_lacunarity
          (pyIntNat cfg0.frequency * pyIntNat cfg0.size.2) k) := by
    intro k hk
    have hk1 : k = 0 := by
      have h1 : k < 1 := by simpa [cfg0] using hk
      omega
    subst hk1
    rw [octaveScale_zero, octaveScale_zero, e0w, e0l, e0x, e0y, e0f]
    decide
  exact ⟨hal0, perlin_terrain_fractal_sum cfg0 (fun _ _ _ => 0) hal0⟩

end RlTraining
